import Mathlib

/-!
Shallow embedding of the gold-trading monitor's core
(`notification_system.py`, `technical_analysis.py`, the EOD scheduling
portion of `bot.py`).  Prices, indicator values and impact scores are
modelled as exact rationals; pandas NaN values are modelled as `Option`
(`none` = NaN, and comparisons against NaN are `false`, as in pandas).
-/

/-- A news article as consumed by `check_news` (only the fields the
dedup logic reads). -/
structure Article where
  title : String
  source : String
  impact : ℚ
deriving DecidableEq, Repr

/-- The id built for each high-impact article: `title + "|" + source`. -/
def newsId (a : Article) : String := a.title ++ "|" ++ a.source

/-- Trading signal type as classified by `get_signal_summary`. -/
inductive SignalType where
  | BUY
  | SELL
  | NEUTRAL
deriving DecidableEq, Repr

/-- The point-in-time summary produced by `get_signal_summary`
(fields the claims read; `rsi` is optional because the latest RSI cell
can be NaN). -/
structure Summary where
  price : ℚ
  signal_type : SignalType
  signal_strength : ℚ
  rsi : Option ℚ
  macd : ℚ
  macd_signal : ℚ
  closest_support : Option ℚ
  closest_resistance : Option ℚ
deriving DecidableEq, Repr

/-- A stored notification record (payload contents are irrelevant to the
history-bounding logic; we keep the type and title). -/
structure Notification where
  ntype : String
  title : String
deriving DecidableEq, Repr

/-- The payload of a PRICE event (`data` dict of the price notification). -/
structure PriceEvent where
  current_price : ℚ
  previous_price : ℚ
  price_change : ℚ
  percent_change : ℚ
deriving DecidableEq, Repr

/-- The mutable state of `NotificationSystem` (`__init__`): thresholds and
the per-channel last observations.  `persisted` models the contents of
`data/notification_history.json`. -/
structure NotificationSystem where
  price_change_threshold : ℚ
  rsi_overbought : ℚ
  rsi_oversold : ℚ
  last_price : Option ℚ
  last_signal : Option SignalType
  last_news_ids : Finset String
  notifications_history : List Notification
  persisted : List Notification
deriving DecidableEq

/-- Python's `l[-k:]`: the `k` most recent entries of `l`. -/
def lastN (k : ℕ) (l : List Notification) : List Notification :=
  l.drop (l.length - k)

/-- `_save_notification_history`: writes `notifications_history[-100:]`
to storage. -/
def save_notification_history (ns : NotificationSystem) : NotificationSystem :=
  { ns with persisted := lastN 100 ns.notifications_history }

/-- `add_notification`: `None` is rejected; otherwise append to the
in-memory history (no truncation) and persist the most recent 100. -/
def add_notification (ns : NotificationSystem) (n : Option Notification) :
    NotificationSystem × Bool :=
  match n with
  | none => (ns, false)
  | some n =>
      let ns1 := { ns with notifications_history := ns.notifications_history ++ [n] }
      (save_notification_history ns1, true)

/-- Fold `add_notification` over a list of notifications. -/
def addMany (ns : NotificationSystem) (l : List Notification) : NotificationSystem :=
  l.foldl (fun s n => (add_notification s (some n)).1) ns

/-- `check_price_movement`: the argument is the (possibly failed) result
of `gold_monitor.get_current_price()`.  First observation seeds
`last_price`; afterwards a PRICE event fires iff
`|percent_change| ≥ price_change_threshold`; `last_price` is set to the
current price on every observed call. -/
def check_price_movement (ns : NotificationSystem) (current_price : Option ℚ) :
    NotificationSystem × Option PriceEvent :=
  match current_price with
  | none => (ns, none)
  | some p =>
      match ns.last_price with
      | none => ({ ns with last_price := some p }, none)
      | some lp =>
          let price_change := p - lp
          let percent_change := price_change / lp * 100
          if ns.price_change_threshold ≤ |percent_change| then
            ({ ns with last_price := some p },
             some ⟨p, lp, price_change, percent_change⟩)
          else
            ({ ns with last_price := some p }, none)

/-- The body of `check_technical_signals` once a signal summary has been
obtained (lines 167-202): seed on first call, else emit iff the type
changed and is not NEUTRAL; `last_signal` is updated on every call. -/
def check_technical_signals_core (ns : NotificationSystem) (summary : Summary) :
    NotificationSystem × Option Summary :=
  match ns.last_signal with
  | none => ({ ns with last_signal := some summary.signal_type }, none)
  | some last =>
      if summary.signal_type ≠ last ∧ summary.signal_type ≠ SignalType.NEUTRAL then
        ({ ns with last_signal := some summary.signal_type }, some summary)
      else
        ({ ns with last_signal := some summary.signal_type }, none)

/-- Fold `check_technical_signals_core` over a list of summaries,
collecting the per-call emissions. -/
def runSignalsCore (ns : NotificationSystem) : List Summary →
    NotificationSystem × List (Option Summary)
  | [] => (ns, [])
  | s :: rest =>
      let r := check_technical_signals_core ns s
      let rr := runSignalsCore r.1 rest
      (rr.1, r.2 :: rr.2)

/-- The id set of the current high-impact articles
(`current_news_ids` in `check_news`, threshold 0.7). -/
def currentIds (news : List Article) : Finset String :=
  ((news.filter (fun a => (7 : ℚ)/10 ≤ a.impact)).map newsId).toFinset

/-- `check_news`: the argument is the fetched news list (empty models a
failed/empty fetch).  Mirrors the early returns of the source: empty
fetch, empty high-impact set, unseeded (`last_news_ids` empty), and no
new ids all return without touching state; only when new ids exist are
events emitted and `last_news_ids` replaced. -/
def check_news (ns : NotificationSystem) (news : List Article) :
    NotificationSystem × List Article :=
  if news.isEmpty then (ns, [])
  else
    let high_impact := news.filter (fun a => (7 : ℚ)/10 ≤ a.impact)
    if high_impact.isEmpty then (ns, [])
    else
      let current_news_ids := (high_impact.map newsId).toFinset
      if ns.last_news_ids = ∅ then
        ({ ns with last_news_ids := current_news_ids }, [])
      else
        let new_news_ids := current_news_ids \ ns.last_news_ids
        if new_news_ids = ∅ then (ns, [])
        else
          let notifs := high_impact.filter (fun a => newsId a ∈ new_news_ids)
          ({ ns with last_news_ids := current_news_ids }, notifs)

/-- A fresh `NotificationSystem` with the default configuration
(`check_interval=900, price_change_threshold=0.5, rsi_overbought=70,
rsi_oversold=30`) and empty loaded history. -/
def nsInit : NotificationSystem :=
  { price_change_threshold := 1/2
    rsi_overbought := 70
    rsi_oversold := 30
    last_price := none
    last_signal := none
    last_news_ids := ∅
    notifications_history := []
    persisted := [] }

/-! ## Indicator Engine (`technical_analysis.py`) -/

/-- An OHLC bar restricted to the fields the indicator engine reads. -/
structure Bar where
  Close : ℚ
  High : ℚ
  Low : ℚ
deriving DecidableEq, Repr

/-- Per-row gain of `calculate_rsi`: `delta.where(delta > 0, 0)`.
Row 0's NaN delta fails the comparison and becomes 0, as in pandas. -/
def gainAt (closes : List ℚ) (i : ℕ) : ℚ :=
  if i = 0 then 0 else max (closes.getD i 0 - closes.getD (i - 1) 0) 0

/-- Per-row loss of `calculate_rsi`: `-delta.where(delta < 0, 0)`. -/
def lossAt (closes : List ℚ) (i : ℕ) : ℚ :=
  if i = 0 then 0 else max (closes.getD (i - 1) 0 - closes.getD i 0) 0

/-- `gain.rolling(window=14).mean()` at row `i` (`none` = NaN warmup). -/
def avgGain (closes : List ℚ) (i : ℕ) : Option ℚ :=
  if 13 ≤ i then
    some ((((List.range 14).map (fun j => gainAt closes (i - j))).sum) / 14)
  else none

/-- `loss.rolling(window=14).mean()` at row `i` (`none` = NaN warmup). -/
def avgLoss (closes : List ℚ) (i : ℕ) : Option ℚ :=
  if 13 ≤ i then
    some ((((List.range 14).map (fun j => lossAt closes (i - j))).sum) / 14)
  else none

/-- Per-row RSI `100 - 100/(1 + avg_gain/avg_loss)` with pandas float
semantics: `avg_loss = 0 < avg_gain` gives `rs = inf` hence RSI = 100,
and `avg_loss = avg_gain = 0` gives NaN (`none`). -/
def rsiAt (closes : List ℚ) (i : ℕ) : Option ℚ :=
  match avgGain closes i, avgLoss closes i with
  | some ag, some al =>
      if 0 < al then some (100 - 100 / (1 + ag / al))
      else if 0 < ag then some 100
      else none
  | _, _ => none

/-- `calculate_rsi(period=14)`: `None` when fewer than `period + 1` bars,
otherwise the per-row RSI series. -/
def calculate_rsi (data : List Bar) : Option (ℕ → Option ℚ) :=
  if data.length < 14 + 1 then none
  else some (rsiAt (data.map Bar.Close))

/-- `ewm(span=n, adjust=False).mean()` recurrence with `α = 2/(n+1)`:
`ema[0] = f 0`, `ema[i+1] = α·f (i+1) + (1-α)·ema[i]`. -/
def emaRec (a : ℚ) (f : ℕ → ℚ) : ℕ → ℚ
  | 0 => f 0
  | i + 1 => a * f (i + 1) + (1 - a) * emaRec a f i

/-- MACD line: `EMA(close,12) - EMA(close,26)`. -/
def macdLine (closes : List ℚ) (i : ℕ) : ℚ :=
  emaRec (2/13) (fun j => closes.getD j 0) i - emaRec (2/27) (fun j => closes.getD j 0) i

/-- MACD signal line: `EMA(macd_line, 9)`. -/
def macdSignalLine (closes : List ℚ) (i : ℕ) : ℚ :=
  emaRec (2/10) (macdLine closes) i

/-- `calculate_macd(12, 26, 9)`: `None` triple when fewer than
`slow_period + signal_period` bars; else (macd, signal, histogram). -/
def calculate_macd (data : List Bar) : Option ((ℕ → ℚ) × (ℕ → ℚ) × (ℕ → ℚ)) :=
  if data.length < 26 + 9 then none
  else
    let closes := data.map Bar.Close
    some (macdLine closes, macdSignalLine closes,
          fun i => macdLine closes i - macdSignalLine closes i)

/-- `close.rolling(window=period).mean()` at row `i` (`none` = NaN warmup). -/
def maAt (closes : List ℚ) (period : ℕ) (i : ℕ) : Option ℚ :=
  if period ≤ i + 1 then
    some ((((List.range period).map (fun j => closes.getD (i - j) 0)).sum) / (period : ℚ))
  else none

/-- `calculate_moving_averages(periods)`: `None` when fewer than
`max(periods)` bars; else the dict `{f'MA{p}': rolling mean}` as an
association list keyed by period. -/
def calculate_moving_averages (data : List Bar) (periods : List ℕ) :
    Option (List (ℕ × (ℕ → Option ℚ))) :=
  if data.length < periods.foldr max 0 then none
  else some (periods.map (fun p => (p, maAt (data.map Bar.Close) p)))

/-- Support test of `identify_support_resistance`: `lows[i]` is at most
every low within `window` bars on both sides (ties inclusive). -/
def isLocalMin (lows : List ℚ) (window : ℕ) (i : ℕ) : Bool :=
  (List.range window).all (fun j =>
    decide (lows.getD i 0 ≤ lows.getD (i - (j + 1)) 0) &&
    decide (lows.getD i 0 ≤ lows.getD (i + (j + 1)) 0))

/-- Resistance test: `highs[i]` is at least every high within `window`
bars on both sides (ties inclusive). -/
def isLocalMax (highs : List ℚ) (window : ℕ) (i : ℕ) : Bool :=
  (List.range window).all (fun j =>
    decide (highs.getD (i - (j + 1)) 0 ≤ highs.getD i 0) &&
    decide (highs.getD (i + (j + 1)) 0 ≤ highs.getD i 0))

/-- `identify_support_resistance(window)`: `(None, None)` when fewer than
`2·window` bars; else the support/resistance price levels scanned
left-to-right over `i ∈ [window, len - window)`. -/
def identify_support_resistance (data : List Bar) (window : ℕ) :
    Option (List ℚ × List ℚ) :=
  if data.length < window * 2 then none
  else
    let highs := data.map Bar.High
    let lows := data.map Bar.Low
    let idxs := (List.range (data.length - window)).filter (fun i => decide (window ≤ i))
    let support_levels := (idxs.filter (isLocalMin lows window)).map (fun i => lows.getD i 0)
    let resistance_levels := (idxs.filter (isLocalMax highs window)).map (fun i => highs.getD i 0)
    some (support_levels, resistance_levels)

/-! ## Signal Aggregator -/

/-- The columns of the signals DataFrame built by `generate_signals`
(per-row series as functions; `MA_Cross` is `none` when the MA20/MA50
columns were never added). -/
structure Frame where
  len : ℕ
  Close : ℕ → ℚ
  RSI : ℕ → Option ℚ
  MACD : ℕ → ℚ
  MACD_Signal : ℕ → ℚ
  MACD_Histogram : ℕ → ℚ
  MAcols : List (ℕ × (ℕ → Option ℚ))
  RSI_Sub : ℕ → ℚ
  MACD_Cross : ℕ → ℚ
  MA_Cross : Option (ℕ → ℚ)
  Signal : ℕ → ℚ

/-- RSI sub-signal column: +1 where RSI < 30, −1 where RSI > 70, else 0;
a NaN RSI fails both comparisons and is left at the initial 0. -/
def rsiSubAt (rsi : ℕ → Option ℚ) (i : ℕ) : ℚ :=
  match rsi i with
  | some r => if r < 30 then 1 else if 70 < r then -1 else 0
  | none => 0

/-- MACD cross sub-signal column: +1 where MACD > signal, −1 where
MACD < signal, else the initial 0. -/
def crossAt (fast slow : ℕ → ℚ) (i : ℕ) : ℚ :=
  if slow i < fast i then 1 else if fast i < slow i then -1 else 0

/-- MA cross sub-signal column: +1 where MA20 > MA50, −1 where
MA20 < MA50; NaN warmup cells fail both comparisons and stay 0. -/
def maCrossAt (ma20 ma50 : ℕ → Option ℚ) (i : ℕ) : ℚ :=
  match ma20 i, ma50 i with
  | some a, some b => if b < a then 1 else if a < b then -1 else 0
  | _, _ => 0

/-- `generate_signals`: `None` as soon as any of RSI, MACD or the moving
averages reports insufficient data; otherwise assembles the signals
DataFrame, adds the three sub-signal columns (the MA cross column only
when MA20 and MA50 are both present), sums the columns that exist and
divides by the number of contributing indicator columns. -/
def generate_signals (data : List Bar) : Option Frame :=
  match calculate_rsi data, calculate_macd data,
        calculate_moving_averages data [20, 50, 200] with
  | some rsi, some macd3, some mas =>
      let macd_line := macd3.1
      let signal_line := macd3.2.1
      let histogram := macd3.2.2
      let rsiSub := rsiSubAt rsi
      let macdCross := crossAt macd_line signal_line
      let maCross : Option (ℕ → ℚ) :=
        match mas.lookup 20, mas.lookup 50 with
        | some ma20, some ma50 => some (maCrossAt ma20 ma50)
        | _, _ => none
      let num_indicators : ℚ :=
        2 + (match maCross with | some _ => 1 | none => 0)
      let total := fun i =>
        rsiSub i + macdCross i + (match maCross with | some f => f i | none => 0)
      let signal := fun i =>
        if 0 < num_indicators then total i / num_indicators else total i
      some { len := data.length
             Close := fun i => (data.map Bar.Close).getD i 0
             RSI := rsi
             MACD := macd_line
             MACD_Signal := signal_line
             MACD_Histogram := histogram
             MAcols := mas
             RSI_Sub := rsiSub
             MACD_Cross := macdCross
             MA_Cross := maCross
             Signal := signal }
  | _, _, _ => none

/-- `get_signal_summary(signals)`: `None` when the signals frame is
absent or empty; else classifies the latest composite value and attaches
the closest support/resistance, which are computed only when **both**
level lists are nonempty. -/
def get_signal_summary (data : List Bar) (signalsArg : Option Frame) : Option Summary :=
  let signals := match signalsArg with
    | none => generate_signals data
    | some s => some s
  match signals with
  | none => none
  | some s =>
      if s.len = 0 then none
      else
        let last := s.len - 1
        let signal_value := s.Signal last
        let stype :=
          if (0.2 : ℚ) < signal_value then SignalType.BUY
          else if signal_value < -(0.2 : ℚ) then SignalType.SELL
          else SignalType.NEUTRAL
        let current_price := s.Close last
        let sr :=
          match identify_support_resistance data 10 with
          | some (support_levels, resistance_levels) =>
              if ¬ support_levels.isEmpty ∧ ¬ resistance_levels.isEmpty then
                let supports_below := support_levels.filter (fun l => l < current_price)
                let resistances_above := resistance_levels.filter (fun l => current_price < l)
                (supports_below.max?, resistances_above.min?)
              else (none, none)
          | none => (none, none)
        some { price := current_price
               signal_type := stype
               signal_strength := |signal_value|
               rsi := s.RSI last
               macd := s.MACD last
               macd_signal := s.MACD_Signal last
               closest_support := sr.1
               closest_resistance := sr.2 }

/-- `check_technical_signals(technical_analysis)`: generate the signals
from the analysis data, bail out (without touching state) when signals
or summary are unavailable, else run the two-state machine. -/
def check_technical_signals (ns : NotificationSystem) (data : List Bar) :
    NotificationSystem × Option Summary :=
  match generate_signals data with
  | none => (ns, none)
  | some s =>
      if s.len = 0 then (ns, none)
      else
        match get_signal_summary data (some s) with
        | none => (ns, none)
        | some summary => check_technical_signals_core ns summary

/-! ## Report Scheduler (`bot.py`, `run_monitoring_loop`) -/

/-- One iteration's observable inputs: whether `fetch_live_data`
succeeded, and the local calendar date / hour / minute of
`datetime.now()` (dates as ordinals so `>` is date comparison). -/
structure Poll where
  dataOk : Bool
  date : ℕ
  hour : ℕ
  minute : ℕ
deriving DecidableEq, Repr

/-- The EOD trigger condition of the monitoring loop:
`current_time.hour == eod_hour and current_time.minute >= eod_minute and
(last_eod_report_date is None or current_time.date() > last_eod_report_date)`,
reachable only when data was fetched. -/
def eodFires (eh em : ℕ) (last : Option ℕ) (p : Poll) : Bool :=
  p.dataOk && (p.hour == eh) && decide (em ≤ p.minute) &&
    (match last with
     | none => true
     | some d => decide (d < p.date))

/-- One loop iteration's effect on `last_eod_report_date`, paired with
whether an EOD report was generated. -/
def eodStep (eh em : ℕ) (last : Option ℕ) (p : Poll) : Option ℕ × Bool :=
  if eodFires eh em last p then (some p.date, true) else (last, false)

/-- Run the loop over a polling sequence, collecting per-poll fire flags. -/
def eodRun (eh em : ℕ) (last : Option ℕ) : List Poll → Option ℕ × List Bool
  | [] => (last, [])
  | p :: ps =>
      let r := eodStep eh em last p
      let rest := eodRun eh em r.1 ps
      (rest.1, r.2 :: rest.2)

/-- The dates on which the loop generates an EOD report. -/
def fireDates (eh em : ℕ) (last : Option ℕ) : List Poll → List ℕ
  | [] => []
  | p :: ps =>
      let r := eodStep eh em last p
      (if r.2 then [p.date] else []) ++ fireDates eh em r.1 ps

/-! ## Concrete instances used in witnesses and counterexamples -/

attribute [local semireducible] Rat.add Rat.mul Rat.sub Rat.inv Rat.ofScientific

/-- An alternating close series (so gains and losses are both present). -/
def altClose (i : ℕ) : ℚ := if i % 2 = 0 then 100 else 101

/-- A bar whose three price fields coincide. -/
def mkFlatBar (c : ℚ) : Bar := ⟨c, c, c⟩

/-- 100 alternating bars: RSI and MACD computable, 200-bar MA not. -/
def data100 : List Bar := (List.range 100).map (fun i => mkFlatBar (altClose i))

/-- 15 alternating bars: exactly enough for the RSI warmup. -/
def data15 : List Bar := (List.range 15).map (fun i => mkFlatBar (altClose i))

/-- 21 bars with a unique local-minimum low at index 10 and strictly
increasing highs, so support levels exist but no resistance level does. -/
def data21 : List Bar :=
  (List.range 21).map (fun i => ⟨50, 100 + i, if i = 10 then 10 else 20⟩)

/-- A one-row signals frame (as may be passed to `get_signal_summary`). -/
def frame1 : Frame :=
  { len := 1
    Close := fun _ => 50
    RSI := fun _ => some 50
    MACD := fun _ => 0
    MACD_Signal := fun _ => 0
    MACD_Histogram := fun _ => 0
    MAcols := []
    RSI_Sub := fun _ => 0
    MACD_Cross := fun _ => 0
    MA_Cross := none
    Signal := fun _ => 0 }

/-- A summary carrying a given signal type (the state machine reads only
the type). -/
def mkSummary (t : SignalType) : Summary :=
  { price := 0, signal_type := t, signal_strength := 0, rsi := none,
    macd := 0, macd_signal := 0, closest_support := none, closest_resistance := none }

/-- A sample stored notification. -/
def n1 : Notification := ⟨"price", "t"⟩

/-- Two distinct high-impact articles (impact 0.8 ≥ 0.7). -/
def artA : Article := ⟨"A", "S", 4/5⟩

/-- Second sample article. -/
def artB : Article := ⟨"B", "S", 4/5⟩

/-- A notification system already seeded with the ids of both articles. -/
def nsNews : NotificationSystem := { nsInit with last_news_ids := currentIds [artA, artB] }

/-- 200 alternating bars: every indicator has its minimum window. -/
def data200 : List Bar := (List.range 200).map (fun i => mkFlatBar (altClose i))

/-- 21 bars with both a support level (low 10 at index 10) and a
resistance level (high 200 at index 10). -/
def dataSR : List Bar :=
  (List.range 21).map (fun i => ⟨50, if i = 10 then 200 else 100, if i = 10 then 10 else 20⟩)

/-- The per-poll EOD trigger predicate, ignoring the once-per-day guard:
data fetched, `hour == eod_hour`, `minute ≥ eod_minute`. -/
def eodTrigger (eh em : ℕ) (p : Poll) : Bool :=
  p.dataOk && (p.hour == eh) && decide (em ≤ p.minute)

/-- The fire pattern of a single-date run: the first poll satisfying the
trigger predicate fires and every later poll does not. -/
def firstTriggerMask (eh em : ℕ) : List Poll → List Bool
  | [] => []
  | p :: ps =>
      if eodTrigger eh em p then true :: ps.map (fun _ => false)
      else false :: firstTriggerMask eh em ps

/-- Antisymmetry of ≤ on ℚ, needed by the list max?/min?
characterizations. -/
instance : Std.Antisymm (fun x1 x2 : ℚ => x1 ≤ x2) := ⟨fun h h2 => le_antisymm h h2⟩

/-! ## Theorems -/

/-- C5: `check_price_movement` seeds `last_price` and returns no event on
its first observed call; on every later call it emits a PRICE event iff
`|(current − last_price)/last_price × 100| ≥ threshold`, carrying the
price change, and `last_price` is rebased to the current price on every
call; the trace 1900.00, 1919.50, 1920.00 at threshold 0.5% yields no
event, a PRICE event with change 19.50, and no event with the baseline
left at 1920.00. -/
theorem check_price_movement_ok :
    (∀ ns p, ns.last_price = none →
      check_price_movement ns (some p) = ({ ns with last_price := some p }, none)) ∧
    (∀ ns lp p, ns.last_price = some lp →
      (check_price_movement ns (some p)).1 = { ns with last_price := some p } ∧
      ((check_price_movement ns (some p)).2 ≠ none ↔
        ns.price_change_threshold ≤ |(p - lp) / lp * 100|) ∧
      ((check_price_movement ns (some p)).2 ≠ none →
        (check_price_movement ns (some p)).2 =
          some ⟨p, lp, p - lp, (p - lp) / lp * 100⟩)) ∧
    ((check_price_movement nsInit (some 1900)).2 = none ∧
     (check_price_movement nsInit (some 1900)).1.last_price = some 1900 ∧
     (check_price_movement (check_price_movement nsInit (some 1900)).1 (some 1919.5)).2 =
       some ⟨1919.5, 1900, 19.5, 39/38⟩ ∧
     (check_price_movement (check_price_movement (check_price_movement nsInit
         (some 1900)).1 (some 1919.5)).1 (some 1920)).2 = none ∧
     (check_price_movement (check_price_movement (check_price_movement nsInit
         (some 1900)).1 (some 1919.5)).1 (some 1920)).1.last_price = some 1920) := by
  refine ⟨?_, ?_, by decide⟩
  · intro ns p h
    simp [check_price_movement, h]
  · intro ns lp p h
    by_cases hth : ns.price_change_threshold ≤ |(p - lp) / lp * 100|
    · simp [check_price_movement, h, hth]
    · simp [check_price_movement, h, hth]

/-- Witness for C5: first call at price 5 on a fresh system seeds the
baseline and emits nothing. -/
theorem check_price_movement_ok_witness :
    nsInit.last_price = none ∧
    check_price_movement nsInit (some 5) = ({ nsInit with last_price := some 5 }, none) :=
  ⟨rfl, check_price_movement_ok.1 nsInit 5 rfl⟩

/-- C6: the technical-signal state machine seeds `last_signal_type` and
returns no event on its first call; afterwards it emits iff the type
changed and the new type is not NEUTRAL, updating `last_signal_type`
unconditionally; the sequence [BUY, BUY, SELL, NEUTRAL, SELL] emits
exactly at the BUY→SELL and NEUTRAL→SELL transitions. -/
theorem check_technical_signals_core_ok :
    (∀ ns s, ns.last_signal = none →
      check_technical_signals_core ns s =
        ({ ns with last_signal := some s.signal_type }, none)) ∧
    (∀ ns t s, ns.last_signal = some t →
      (check_technical_signals_core ns s).1 =
        { ns with last_signal := some s.signal_type } ∧
      ((check_technical_signals_core ns s).2 ≠ none ↔
        (s.signal_type ≠ t ∧ s.signal_type ≠ SignalType.NEUTRAL))) ∧
    ((runSignalsCore nsInit
        ([SignalType.BUY, .BUY, .SELL, .NEUTRAL, .SELL].map mkSummary)).2.map Option.isSome
      = [false, false, true, false, true]) := by
  refine ⟨?_, ?_, by decide⟩
  · intro ns s h
    simp [check_technical_signals_core, h]
  · intro ns t s h
    by_cases hc : s.signal_type ≠ t ∧ s.signal_type ≠ SignalType.NEUTRAL
    · simp [check_technical_signals_core, h, hc]
    · simp [check_technical_signals_core, h, hc]

/-- Witness for C6: a first call with a BUY summary on a fresh system
seeds the state and emits nothing. -/
theorem check_technical_signals_core_ok_witness :
    nsInit.last_signal = none ∧
    check_technical_signals_core nsInit (mkSummary SignalType.BUY) =
      ({ nsInit with last_signal := some SignalType.BUY }, none) :=
  ⟨rfl, check_technical_signals_core_ok.1 nsInit (mkSummary SignalType.BUY) rfl⟩

/-- Once `last_eod_report_date` is at or past `d`, no report ever fires
on date `d` again (the loop's guard requires a strictly later date). -/
theorem fireDates_count_zero (eh em : ℕ) (polls : List Poll) :
    ∀ d0 d, d ≤ d0 → (fireDates eh em (some d0) polls).count d = 0 := by
  induction polls with
  | nil => intro d0 d _; simp [fireDates]
  | cons p ps ih =>
      intro d0 d hd
      by_cases hf : eodFires eh em (some d0) p = true
      · have hlt : d0 < p.date := by
          have := hf
          simp only [eodFires, Bool.and_eq_true, decide_eq_true_eq] at this
          exact this.2
        have hne : p.date ≠ d := by omega
        simp only [fireDates, eodStep, hf, if_true]
        simp only [List.count_append, List.count_cons, List.count_nil]
        have := ih p.date d (by omega)
        simp [this, hne]
      · simp only [fireDates, eodStep, hf, if_false]
        simpa using ih d0 d hd

/-- C7: for every polling sequence, at most one EOD report is generated
per calendar date, however often the loop is polled past the trigger
time on the same date. -/
theorem eod_at_most_once_per_date (eh em : ℕ) (last : Option ℕ)
    (polls : List Poll) (d : ℕ) :
    (fireDates eh em last polls).count d ≤ 1 := by
  induction polls generalizing last with
  | nil => simp [fireDates]
  | cons p ps ih =>
      by_cases hf : eodFires eh em last p = true
      · simp only [fireDates, eodStep, hf, if_true]
        simp only [List.count_append, List.count_cons, List.count_nil]
        by_cases hd : p.date = d
        · subst hd
          have := fireDates_count_zero eh em ps p.date p.date le_rfl
          simp [this]
        · have : ¬ (p.date == d) = true := by simpa using hd
          simp only [List.count_append, List.count_cons, List.count_nil] at *
          simpa [hd] using ih (some p.date)
      · simp only [fireDates, eodStep, hf, if_false]
        simpa using ih last

set_option maxRecDepth 20000 in
/-- C4 counterexample: after 101 appends the **in-memory** notification
history has 101 entries — `add_notification` never truncates the list it
keeps in memory, only the persisted copy. -/
theorem add_notification_unbounded_cex :
    100 < (addMany nsInit (List.replicate 101 n1)).notifications_history.length ∧
    (addMany nsInit (List.replicate 101 n1)).persisted.length = 100 := by
  exact ⟨by decide, by decide⟩

/-- C4 amended: each append grows the in-memory history by exactly one
entry without bound, while the persisted copy is the suffix of the 100
most recent entries and so never exceeds 100. -/
theorem add_notification_amended (ns : NotificationSystem) (n : Notification) :
    (add_notification ns (some n)).1.notifications_history
        = ns.notifications_history ++ [n] ∧
    (add_notification ns (some n)).1.persisted
        = lastN 100 (ns.notifications_history ++ [n]) ∧
    (add_notification ns (some n)).1.persisted.length ≤ 100 := by
  refine ⟨rfl, rfl, ?_⟩
  simp only [add_notification, save_notification_history, lastN]
  simp only [List.length_drop]
  omega

/-- C1 counterexample: with ids {A|S, B|S} seeded, a call whose current
high-impact set is only {A|S} finds no new ids and returns early, so
`last_news_ids` is **not** replaced by the current set; consequently a
following call where B|S reappears emits nothing. -/
theorem check_news_replacement_cex :
    nsNews.last_news_ids ≠ ∅ ∧
    (check_news nsNews [artA]).1.last_news_ids ≠ currentIds [artA] ∧
    (check_news (check_news nsNews [artA]).1 [artA, artB]).2 = [] := by
  exact ⟨by decide, by decide, by decide⟩

/-- C1 amended: on a non-first call, `last_news_ids` is replaced with the
current id set only when the call emits at least one NEWS event; on a
call with no new ids (or an empty fetch / empty high-impact set) the
whole state is left unchanged, so a disappeared id is re-announced only
if some intervening call replaced the stored set. -/
theorem check_news_amended (ns : NotificationSystem) (news : List Article)
    (h : ns.last_news_ids ≠ ∅) :
    (check_news ns news).1 =
      (if (check_news ns news).2 = [] then ns
       else { ns with last_news_ids := currentIds news }) := by
  unfold check_news
  by_cases h1 : news.isEmpty
  · simp [h1]
  · simp only [h1, Bool.false_eq_true, if_false]
    by_cases h2 : (news.filter (fun a => (7 : ℚ)/10 ≤ a.impact)).isEmpty
    · simp [h2]
    · simp only [h2, Bool.false_eq_true, if_false]
      rw [if_neg h]
      by_cases h4 :
          ((news.filter (fun a => (7 : ℚ)/10 ≤ a.impact)).map newsId).toFinset \
            ns.last_news_ids = ∅
      · simp [h4]
      · rw [if_neg h4]
        have hne :
            (news.filter (fun a => (7 : ℚ)/10 ≤ a.impact)).filter
              (fun a => newsId a ∈
                ((news.filter (fun a => (7 : ℚ)/10 ≤ a.impact)).map newsId).toFinset \
                  ns.last_news_ids) ≠ [] := by
          obtain ⟨x, hx⟩ := Finset.nonempty_iff_ne_empty.mpr h4
          have hxc : x ∈ ((news.filter (fun a => (7 : ℚ)/10 ≤ a.impact)).map
              newsId).toFinset := (Finset.mem_sdiff.mp hx).1
          rw [List.mem_toFinset, List.mem_map] at hxc
          obtain ⟨a, ha, hax⟩ := hxc
          have : a ∈ (news.filter (fun a => (7 : ℚ)/10 ≤ a.impact)).filter
              (fun a => newsId a ∈
                ((news.filter (fun a => (7 : ℚ)/10 ≤ a.impact)).map newsId).toFinset \
                  ns.last_news_ids) := by
            rw [List.mem_filter]
            exact ⟨ha, by rw [hax]; simpa using hx⟩
          exact List.ne_nil_of_mem this
        simp only [hne, if_false, currentIds]

/-- Witness for C1 amended: a seeded system observing a fresh article
emits and has its id set replaced. -/
theorem check_news_amended_witness :
    nsNews.last_news_ids ≠ ∅ ∧
    (check_news nsNews [artA]).1 =
      (if (check_news nsNews [artA]).2 = [] then nsNews
       else { nsNews with last_news_ids := currentIds [artA] }) :=
  ⟨by decide, check_news_amended nsNews [artA] (by decide)⟩

/-- C3 counterexample: with the trigger configured at 16:00 and no report
fired yet that day, a poll at 17:05 — the first poll at or after the
trigger time (16:00 ≤ 17:05) — does **not** fire, because the loop
requires `hour == eod_hour` exactly. -/
theorem eod_late_poll_cex :
    16 * 60 + 0 ≤ 17 * 60 + 5 ∧
    (eodRun 16 0 none [⟨true, 0, 17, 5⟩]).2 = [false] := by
  exact ⟨by decide, by decide⟩


/-- The loop's fire condition factored as: trigger predicate holds and
the once-per-day guard passes. -/
theorem eodFires_eq (eh em : ℕ) (last : Option ℕ) (p : Poll) :
    eodFires eh em last p =
      (eodTrigger eh em p &&
        (match last with | none => true | some d => decide (d < p.date))) := by
  simp [eodFires, eodTrigger, Bool.and_assoc]

/-- After a report has fired on date `d`, later polls of the same date
never fire again. -/
theorem eod_run_no_refire (eh em : ℕ) (d : ℕ) (ps : List Poll)
    (hd : ∀ p ∈ ps, p.date = d) :
    (eodRun eh em (some d) ps).2 = ps.map (fun _ => false) := by
  induction ps with
  | nil => simp [eodRun]
  | cons p ps ih =>
      have hpd : p.date = d := hd p (by simp)
      have hnf : eodFires eh em (some d) p = false := by
        rw [eodFires_eq]
        simp [hpd]
      simp only [eodRun, eodStep, hnf, Bool.false_eq_true, if_false, List.map_cons]
      rw [ih (fun q hq => hd q (by simp [hq]))]

/-- C3 amended: within a single calendar date on which no report has yet
fired, the report fires exactly on the first poll whose **hour equals
`eod_hour`** and whose minute is at or past `eod_minute` (no exact-minute
match required), and on no later poll of that date; a poll after the
trigger hour has passed never fires. -/
theorem eod_fires_on_first_trigger (eh em d : ℕ) (last : Option ℕ) (polls : List Poll)
    (hd : ∀ p ∈ polls, p.date = d)
    (hlast : ∀ d0, last = some d0 → d0 < d) :
    (eodRun eh em last polls).2 = firstTriggerMask eh em polls := by
  induction polls generalizing last with
  | nil => simp [eodRun, firstTriggerMask]
  | cons p ps ih =>
      have hpd : p.date = d := hd p (by simp)
      have hps : ∀ q ∈ ps, q.date = d := fun q hq => hd q (by simp [hq])
      by_cases ht : eodTrigger eh em p = true
      · have hf : eodFires eh em last p = true := by
          rw [eodFires_eq, ht]
          cases last with
          | none => simp
          | some d0 => simp [hpd, hlast d0 rfl]
        simp only [eodRun, eodStep, hf, if_true, firstTriggerMask, ht]
        rw [hpd, eod_run_no_refire eh em d ps hps]
      · have ht' : eodTrigger eh em p = false := by
          rwa [Bool.not_eq_true] at ht
        have hf : eodFires eh em last p = false := by
          rw [eodFires_eq, ht']
          simp
        simp only [eodRun, eodStep, hf, Bool.false_eq_true, if_false,
          firstTriggerMask, ht']
        rw [ih last hps hlast]

/-- Witness for C3 amended: two polls on date 5 at 16:02 and 16:30 with
the trigger at 16:00 — the first fires, the second does not. -/
theorem eod_fires_on_first_trigger_witness :
    (∀ p ∈ [(⟨true, 5, 16, 2⟩ : Poll), ⟨true, 5, 16, 30⟩], p.date = 5) ∧
    (eodRun 16 0 none [(⟨true, 5, 16, 2⟩ : Poll), ⟨true, 5, 16, 30⟩]).2 =
      firstTriggerMask 16 0 [(⟨true, 5, 16, 2⟩ : Poll), ⟨true, 5, 16, 30⟩] :=
  ⟨by decide, eod_fires_on_first_trigger 16 0 5 none
    [(⟨true, 5, 16, 2⟩ : Poll), ⟨true, 5, 16, 30⟩] (by decide)
    (fun d0 h => by cases h)⟩

/-- The rolling average of gains is nonnegative (each per-row gain is a
`max` with 0). -/
theorem avgGain_nonneg (closes : List ℚ) (i : ℕ) (ag : ℚ)
    (h : avgGain closes i = some ag) : 0 ≤ ag := by
  unfold avgGain at h
  by_cases hi : 13 ≤ i
  · simp only [hi, if_true, Option.some.injEq] at h
    rw [← h]
    refine div_nonneg (List.sum_nonneg ?_) (by norm_num)
    intro x hx
    rw [List.mem_map] at hx
    obtain ⟨j, _, rfl⟩ := hx
    unfold gainAt
    split
    · exact le_refl 0
    · exact le_max_right _ _
  · simp [hi] at h

/-- C9: once the series passes the RSI warmup guard, at every bar whose
14-bar average loss is positive the RSI is defined and lies in [0, 100],
and at every bar with zero average loss and positive average gain the
RSI equals 100. -/
theorem calculate_rsi_bounds (data : List Bar) (i : ℕ) (f : ℕ → Option ℚ)
    (hf : calculate_rsi data = some f) :
    (∀ al, avgLoss (data.map Bar.Close) i = some al → 0 < al →
      ∃ r, f i = some r ∧ 0 ≤ r ∧ r ≤ 100) ∧
    (∀ ag al, avgGain (data.map Bar.Close) i = some ag →
      avgLoss (data.map Bar.Close) i = some al → al = 0 → 0 < ag →
      f i = some 100) := by
  have hlen : ¬ data.length < 14 + 1 := by
    by_contra hc
    simp [calculate_rsi, hc] at hf
  have hfe : f = rsiAt (data.map Bar.Close) := by
    simp only [calculate_rsi, hlen, if_false, Option.some.injEq] at hf
    exact hf.symm
  subst hfe
  constructor
  · intro al hal hpos
    have hi : 13 ≤ i := by
      by_contra hik
      simp [avgLoss, hik] at hal
    obtain ⟨ag, hag⟩ : ∃ ag, avgGain (data.map Bar.Close) i = some ag := by
      simp [avgGain, hi]
    have hagn : 0 ≤ ag := avgGain_nonneg _ _ _ hag
    have hrs : 0 ≤ ag / al := div_nonneg hagn hpos.le
    have h1 : (0:ℚ) < 1 + ag / al := by linarith
    refine ⟨100 - 100 / (1 + ag / al), ?_, ?_, ?_⟩
    · simp [rsiAt, hag, hal, hpos]
    · have hq : 100 / (1 + ag / al) ≤ 100 := by
        apply div_le_self (by norm_num)
        linarith
      linarith
    · have hq : 0 < 100 / (1 + ag / al) := by positivity
      linarith
  · intro ag al hag hal hz hpos
    subst hz
    simp [rsiAt, hag, hal, hpos]

/-- Witness for C9: 15 alternating closes, bar 14: the average loss is
1/2 > 0 and the RSI lands in [0, 100]. -/
theorem calculate_rsi_bounds_witness :
    avgLoss (data15.map Bar.Close) 14 = some (1/2) ∧ (0:ℚ) < 1/2 ∧
    (∃ r, rsiAt (data15.map Bar.Close) 14 = some r ∧ 0 ≤ r ∧ r ≤ 100) :=
  ⟨by decide, by decide,
    (calculate_rsi_bounds data15 14 (rsiAt (data15.map Bar.Close))
      (by simp [calculate_rsi, data15])).1 (1/2) (by decide) (by decide)⟩

/-- C10: with the default periods, a series of fewer than 200 bars makes
`generate_signals` return nothing at all (the 200-bar moving average is
unavailable, and the function is all-or-nothing), and consequently
`check_technical_signals` on such a series emits no event and leaves the
whole state — including an unseeded `last_signal_type` — unchanged. -/
theorem short_series_no_signals (data : List Bar) (ns : NotificationSystem)
    (h : data.length < 200) :
    (generate_signals data).isNone = true ∧
    check_technical_signals ns data = (ns, none) := by
  have hfold : List.foldr max 0 [20, 50, 200] = 200 := rfl
  have hma : calculate_moving_averages data [20, 50, 200] = none := by
    simp [calculate_moving_averages, hfold, h]
  have hg : generate_signals data = none := by
    unfold generate_signals
    rw [hma]
    cases calculate_rsi data <;> cases calculate_macd data <;> rfl
  refine ⟨by simp [hg], ?_⟩
  unfold check_technical_signals
  rw [hg]

/-- Witness for C10: the 100-bar series is below every-indicator warmup
and produces no signals and no state change on a fresh system. -/
theorem short_series_no_signals_witness :
    data100.length < 200 ∧
    (generate_signals data100).isNone = true ∧
    check_technical_signals nsInit data100 = (nsInit, none) :=
  ⟨by decide, (short_series_no_signals data100 nsInit (by decide)).1,
    (short_series_no_signals data100 nsInit (by decide)).2⟩

set_option maxRecDepth 20000 in
/-- C2 counterexample: on the 100-bar series the RSI sub-signal inputs
are available at the last bar (the per-bar RSI is defined) and MACD is
computable, yet `generate_signals` yields no signals at all — the
aggregation does not degrade to `sum/2` over the available sub-signals,
it bails out entirely because the 200-bar MA is unavailable. -/
theorem generate_signals_all_or_nothing_cex :
    ((calculate_rsi data100).map (fun f => (f 99).isSome) = some true) ∧
    (calculate_macd data100).isSome = true ∧
    (generate_signals data100).isNone = true := by
  exact ⟨by decide, by decide, by decide⟩

/-- C2 amended: `generate_signals` is all-or-nothing — nothing below 200
bars (default periods), and otherwise the composite at **every** bar is
the sum of the three sub-signal columns divided by the fixed count 3,
where a sub-signal whose inputs are still in warmup (NaN) contributes 0
yet remains counted in the denominator. -/
theorem generate_signals_composite (data : List Bar) :
    (data.length < 200 → (generate_signals data).isNone = true) ∧
    (200 ≤ data.length → ∀ i,
      (generate_signals data).map (fun s => s.Signal i) =
        some ((rsiSubAt (rsiAt (data.map Bar.Close)) i
             + crossAt (macdLine (data.map Bar.Close)) (macdSignalLine (data.map Bar.Close)) i
             + maCrossAt (maAt (data.map Bar.Close) 20) (maAt (data.map Bar.Close) 50) i) / 3)) := by
  constructor
  · intro h
    have hfold : List.foldr max 0 [20, 50, 200] = 200 := rfl
    have hma : calculate_moving_averages data [20, 50, 200] = none := by
      simp [calculate_moving_averages, hfold, h]
    have hg : generate_signals data = none := by
      unfold generate_signals
      rw [hma]
      cases calculate_rsi data <;> cases calculate_macd data <;> rfl
    simp [hg]
  · intro h i
    have hrsi : calculate_rsi data = some (rsiAt (data.map Bar.Close)) := by
      simp [calculate_rsi, show ¬ data.length < 14 + 1 by omega]
    have hmacd : calculate_macd data =
        some (macdLine (data.map Bar.Close), macdSignalLine (data.map Bar.Close),
          fun i => macdLine (data.map Bar.Close) i - macdSignalLine (data.map Bar.Close) i) := by
      simp [calculate_macd, show ¬ data.length < 26 + 9 by omega]
    have hfold : List.foldr max 0 [20, 50, 200] = 200 := rfl
    have hma : calculate_moving_averages data [20, 50, 200] =
        some [(20, maAt (data.map Bar.Close) 20), (50, maAt (data.map Bar.Close) 50),
              (200, maAt (data.map Bar.Close) 200)] := by
      simp [calculate_moving_averages, hfold, show ¬ data.length < 200 by omega]
    unfold generate_signals
    rw [hrsi, hmacd, hma]
    simp [List.lookup]
    norm_num

set_option maxRecDepth 40000 in
/-- Witness for C2 amended: on the 200-bar series the composite at bar 0
is the three-way average of the sub-signal columns. -/
theorem generate_signals_composite_witness :
    200 ≤ data200.length ∧
    ((generate_signals data200).map (fun s => s.Signal 0) =
      some ((rsiSubAt (rsiAt (data200.map Bar.Close)) 0
           + crossAt (macdLine (data200.map Bar.Close)) (macdSignalLine (data200.map Bar.Close)) 0
           + maCrossAt (maAt (data200.map Bar.Close) 20) (maAt (data200.map Bar.Close) 50) 0) / 3)) :=
  ⟨by decide, (generate_signals_composite data200).2 (by decide) 0⟩

/-- C8 counterexample: on a series whose scan finds a support level (10,
strictly below the current price 50) but **no** resistance level, the
summary reports no closest support at all — the two fields are not
determined independently, both are withheld when either list is empty. -/
theorem closest_support_dependent_cex :
    identify_support_resistance data21 10 = some ([10], []) ∧
    ((10:ℚ) < 50) ∧
    (get_signal_summary data21 (some frame1)).map
        (fun sm => (sm.price, sm.closest_support)) = some (50, none) := by
  exact ⟨by decide, by decide, by decide⟩

/-- `get_signal_summary` in closed form once the support/resistance scan
result is known: the closest-support/resistance fields carry the
filtered max?/min? only when both level lists are nonempty. -/
theorem get_signal_summary_eq (data : List Bar) (s : Frame) (hs : ¬ s.len = 0)
    (sup res : List ℚ) (hsr : identify_support_resistance data 10 = some (sup, res)) :
    get_signal_summary data (some s) =
      some { price := s.Close (s.len - 1)
             signal_type :=
               if (0.2 : ℚ) < s.Signal (s.len - 1) then SignalType.BUY
               else if s.Signal (s.len - 1) < -(0.2 : ℚ) then SignalType.SELL
               else SignalType.NEUTRAL
             signal_strength := |s.Signal (s.len - 1)|
             rsi := s.RSI (s.len - 1)
             macd := s.MACD (s.len - 1)
             macd_signal := s.MACD_Signal (s.len - 1)
             closest_support :=
               if ¬ sup.isEmpty ∧ ¬ res.isEmpty then
                 (sup.filter (fun l => l < s.Close (s.len - 1))).max? else none
             closest_resistance :=
               if ¬ sup.isEmpty ∧ ¬ res.isEmpty then
                 (res.filter (fun l => s.Close (s.len - 1) < l)).min? else none } := by
  by_cases hboth : ¬ sup.isEmpty ∧ ¬ res.isEmpty
  · simp [get_signal_summary, hsr, hs, hboth]
  · simp [get_signal_summary, hsr, hs, hboth]
    constructor <;> · split_ifs <;> simp_all

/-- C8 amended: when **both** the support and resistance lists are
nonempty, `closest_support` is exactly the greatest support level
strictly below the current price (`none` when no level is below) and
`closest_resistance` the least resistance level strictly above (`none`
when none is above); when either list is empty, **both** fields are
absent — they are not determined independently. -/
theorem get_signal_summary_closest (data : List Bar) (s : Frame) (hs : ¬ s.len = 0)
    (sup res : List ℚ)
    (hsr : identify_support_resistance data 10 = some (sup, res)) :
    ∃ sm, get_signal_summary data (some s) = some sm ∧
      sm.price = s.Close (s.len - 1) ∧
      ((sup = [] ∨ res = []) → sm.closest_support = none ∧ sm.closest_resistance = none) ∧
      (sup ≠ [] → res ≠ [] →
        ((∀ v, sm.closest_support = some v ↔
            v ∈ sup ∧ v < sm.price ∧ ∀ u ∈ sup, u < sm.price → u ≤ v) ∧
         (∀ v, sm.closest_resistance = some v ↔
            v ∈ res ∧ sm.price < v ∧ ∀ u ∈ res, sm.price < u → v ≤ u))) := by
  refine ⟨_, get_signal_summary_eq data s hs sup res hsr, rfl, ?_, ?_⟩
  · intro hempty
    have hc : ¬ (¬ sup.isEmpty ∧ ¬ res.isEmpty) := by
      rcases hempty with h | h <;> simp [h]
    constructor
    · show (if ¬ sup.isEmpty ∧ ¬ res.isEmpty then _ else none) = none
      rw [if_neg hc]
    · show (if ¬ sup.isEmpty ∧ ¬ res.isEmpty then _ else none) = none
      rw [if_neg hc]
  · intro hsup hres
    have hc : ¬ sup.isEmpty = true ∧ ¬ res.isEmpty = true := by
      constructor <;> simp [hsup, hres]
    constructor
    · intro v
      show (if ¬ sup.isEmpty ∧ ¬ res.isEmpty then
          (sup.filter (fun l => l < s.Close (s.len - 1))).max? else none) = some v ↔ _
      rw [if_pos hc]
      rw [List.max?_eq_some_iff (fun _ => le_refl _) (fun _ _ => max_choice _ _)
        (fun _ _ _ => max_le_iff)]
      constructor
      · rintro ⟨hvf, hmax⟩
        rw [List.mem_filter] at hvf
        refine ⟨hvf.1, by simpa using hvf.2, ?_⟩
        intro u hu hup
        exact hmax u (List.mem_filter.mpr ⟨hu, by simpa using hup⟩)
      · rintro ⟨hv, hvp, hmax⟩
        refine ⟨List.mem_filter.mpr ⟨hv, by simpa using hvp⟩, ?_⟩
        intro b hb
        rw [List.mem_filter] at hb
        exact hmax b hb.1 (by simpa using hb.2)
    · intro v
      show (if ¬ sup.isEmpty ∧ ¬ res.isEmpty then
          (res.filter (fun l => s.Close (s.len - 1) < l)).min? else none) = some v ↔ _
      rw [if_pos hc]
      rw [List.min?_eq_some_iff (fun _ => le_refl _) (fun _ _ => min_choice _ _)
        (fun _ _ _ => le_min_iff)]
      constructor
      · rintro ⟨hvf, hmin⟩
        rw [List.mem_filter] at hvf
        refine ⟨hvf.1, by simpa using hvf.2, ?_⟩
        intro u hu hup
        exact hmin u (List.mem_filter.mpr ⟨hu, by simpa using hup⟩)
      · rintro ⟨hv, hvp, hmin⟩
        refine ⟨List.mem_filter.mpr ⟨hv, by simpa using hvp⟩, ?_⟩
        intro b hb
        rw [List.mem_filter] at hb
        exact hmin b hb.1 (by simpa using hb.2)

/-- Witness for C8 amended: on a series with support level 10 and
resistance level 200 and current price 50, both lists are nonempty and
the characterization applies. -/
theorem get_signal_summary_closest_witness :
    identify_support_resistance dataSR 10 = some ([10], [200]) ∧
    (∃ sm, get_signal_summary dataSR (some frame1) = some sm ∧
      sm.price = frame1.Close (frame1.len - 1) ∧
      ((([10] : List ℚ) = [] ∨ ([200] : List ℚ) = []) →
        sm.closest_support = none ∧ sm.closest_resistance = none) ∧
      (([10] : List ℚ) ≠ [] → ([200] : List ℚ) ≠ [] →
        ((∀ v, sm.closest_support = some v ↔
            v ∈ ([10] : List ℚ) ∧ v < sm.price ∧
              ∀ u ∈ ([10] : List ℚ), u < sm.price → u ≤ v) ∧
         (∀ v, sm.closest_resistance = some v ↔
            v ∈ ([200] : List ℚ) ∧ sm.price < v ∧
              ∀ u ∈ ([200] : List ℚ), sm.price < u → v ≤ u)))) :=
  ⟨by decide, get_signal_summary_closest dataSR frame1 (by decide) [10] [200] (by decide)⟩
